import Mathlib

/-!
Formalisation of the SafeNow core logic: the vote-aggregation verification
state machine (alerts/models.py, api/serializers.py), the alert fan-out
pipeline (alerts/signals.py), the nearby-shelter lookup (api/views.py),
and push-notification formatting (push/fcm.py), together with the pure
geo helpers (backend/safenow/common/geo.py).

Modelling conventions:
- Django model instances become Lean structures; DecimalField coordinates
  and float quantities become exact rationals.
- The haversine distance and the cosine used by the bounding box are
  transcendental real-valued functions; the pipelines are modelled
  parametrically over them (a parameter named hav stands for
  haversine_km, cosD for math.cos of math.radians applied to a latitude).
  Every structural property proved here holds for an arbitrary such
  oracle, and concrete instances are used for concrete scenarios.
- Python exceptions become Except String results; functions that raise
  ValueError are modelled with the messages from the source.
- Python round is round-half-to-even on the exact value (pyRound below);
  int() truncation toward zero is pyTrunc; floor division and modulus on
  nonnegative integers use Int.ediv and Int.emod, which agree with
  Python semantics for the nonnegative operands arising here.
-/

/-! ## Data model (alerts/models.py, devices/models.py, shelters/models.py) -/

/-- Alert.STATUS_CHOICES from alerts/models.py. -/
inductive AlertStatus where
  | PENDING
  | VERIFIED
  | REJECTED
  | ACTIVE
deriving DecidableEq

/-- AlertVote.VOTE_TYPE_CHOICES from alerts/models.py. -/
inductive VoteType where
  | UPVOTE
  | DOWNVOTE
deriving DecidableEq

/-- Alert model from alerts/models.py.  Coordinates are DecimalFields
(exact decimals, modelled by rationals), radius_m an IntegerField,
timestamps modelled as integers, created_by a nullable user reference. -/
structure Alert where
  id : Nat
  hazard_type : String
  severity : String
  center_lat : ℚ
  center_lon : ℚ
  radius_m : ℤ
  valid_until : ℤ
  source : String
  description : Option String
  created_at : ℤ
  created_by : Option Nat
  status : AlertStatus
  verification_score : ℤ
  is_official : Bool
deriving DecidableEq

/-- AlertVote model from alerts/models.py (the auto-managed created_at
and updated_at timestamps play no role in any logic and are omitted). -/
structure AlertVote where
  user : Nat
  alert : Nat
  vote_type : VoteType
deriving DecidableEq

/-- Device model from devices/models.py: nullable push token and
nullable last-known position. -/
structure Device where
  device_id : String
  push_token : Option String
  last_lat : Option ℚ
  last_lon : Option ℚ
deriving DecidableEq

/-- Shelter model from shelters/models.py (fields relevant to the core:
position and the open flag; name and address are carried opaquely). -/
structure Shelter where
  id : Nat
  name : String
  address : String
  lat : ℚ
  lon : ℚ
  is_open_now : Bool
deriving DecidableEq

/-! ## Verification engine (alerts/models.py, api/serializers.py) -/

/-- self.votes: the stored votes belonging to one alert. -/
def votesFor (votes : List AlertVote) (alertId : Nat) : List AlertVote :=
  votes.filter (fun v => v.alert == alertId)

/-- votes.filter(vote_type=t).count() -/
def countByType (votes : List AlertVote) (t : VoteType) : Nat :=
  (votes.filter (fun v => v.vote_type == t)).length

/-- upvotes - downvotes recomputed from the stored vote set of an alert. -/
def scoreOf (votes : List AlertVote) (alertId : Nat) : ℤ :=
  (countByType (votesFor votes alertId) .UPVOTE : ℤ)
    - (countByType (votesFor votes alertId) .DOWNVOTE : ℤ)

/-- Alert.update_verification_score (alerts/models.py lines 110-125):
recompute the score from the alert's votes and, only while the alert is
PENDING, auto-transition to VERIFIED at score >= 3 or REJECTED at
score <= -3; then save update_fields=[verification_score, status]. -/
def Alert.update_verification_score (a : Alert) (allVotes : List AlertVote) : Alert :=
  let upvotes := countByType (votesFor allVotes a.id) .UPVOTE
  let downvotes := countByType (votesFor allVotes a.id) .DOWNVOTE
  let score : ℤ := (upvotes : ℤ) - (downvotes : ℤ)
  let newStatus :=
    if a.status = .PENDING then
      if score ≥ 3 then AlertStatus.VERIFIED
      else if score ≤ -3 then AlertStatus.REJECTED
      else a.status
    else a.status
  { a with verification_score := score, status := newStatus }

/-- AlertVoteSerializer.validate (api/serializers.py lines 365-377):
reject a vote by the alert's creator, and reject votes on alerts whose
status is not in [PENDING, VERIFIED]. -/
def AlertVoteSerializer.validate (alert : Alert) (user : Nat) : Except String Unit :=
  if alert.created_by = some user then
    .error "You cannot vote on your own alert"
  else if alert.status ∉ [AlertStatus.PENDING, AlertStatus.VERIFIED] then
    .error "You can only vote on pending or verified alerts"
  else
    .ok ()

/-- AlertVoteSerializer.create (api/serializers.py lines 379-389):
AlertVote.objects.update_or_create(user=..., alert=...,
defaults=vote_type) - mutate the existing (user, alert) row in place if
one exists, otherwise append a new row. -/
def AlertVoteSerializer.create (votes : List AlertVote) (user : Nat)
    (alertId : Nat) (vt : VoteType) : List AlertVote :=
  if votes.any (fun v => v.user == user && v.alert == alertId) then
    votes.map (fun v =>
      if v.user = user ∧ v.alert = alertId then { v with vote_type := vt } else v)
  else
    votes ++ [{ user := user, alert := alertId, vote_type := vt }]

/-- One complete vote event: the serializer upserts the vote row and the
post_save receiver update_alert_verification_score (alerts/models.py
lines 196-201) recomputes the alert's score and status. -/
def processVote (a : Alert) (votes : List AlertVote) (user : Nat)
    (vt : VoteType) : Alert × List AlertVote :=
  let votes2 := AlertVoteSerializer.create votes user a.id vt
  (a.update_verification_score votes2, votes2)

/-! ## Concrete fixtures used by witnesses and counterexamples -/

/-- A community-submitted alert in PENDING status, created by user 0. -/
def alertPENDING : Alert :=
  { id := 10, hazard_type := "FLOOD", severity := "MEDIUM",
    center_lat := 52, center_lon := 21, radius_m := 2000,
    valid_until := 1000, source := "user", description := none,
    created_at := 0, created_by := some 0, status := .PENDING,
    verification_score := 0, is_official := false }

/-- An alert in ACTIVE status, created by user 0. -/
def alertACTIVE : Alert :=
  { id := 11, hazard_type := "FIRE", severity := "HIGH",
    center_lat := 52, center_lon := 21, radius_m := 1000,
    valid_until := 1000, source := "official", description := none,
    created_at := 0, created_by := some 0, status := .ACTIVE,
    verification_score := 0, is_official := true }

/-! ## C1 - C3: the verification state machine -/

/-- C1: for every vote event, a PENDING alert whose recomputed score
reaches 3 becomes VERIFIED, a PENDING alert whose recomputed score
reaches -3 becomes REJECTED, and an alert whose status is not PENDING
keeps its status unchanged regardless of the new score. -/
theorem C1_vote_status_transitions (a : Alert) (votes : List AlertVote)
    (u : Nat) (vt : VoteType) :
    (a.status = .PENDING →
        3 ≤ scoreOf (AlertVoteSerializer.create votes u a.id vt) a.id →
        (processVote a votes u vt).1.status = .VERIFIED) ∧
    (a.status = .PENDING →
        scoreOf (AlertVoteSerializer.create votes u a.id vt) a.id ≤ -3 →
        (processVote a votes u vt).1.status = .REJECTED) ∧
    (a.status ≠ .PENDING → (processVote a votes u vt).1.status = a.status) := by
  have hst : (processVote a votes u vt).1.status =
      if a.status = .PENDING then
        if scoreOf (AlertVoteSerializer.create votes u a.id vt) a.id ≥ 3 then
          AlertStatus.VERIFIED
        else if scoreOf (AlertVoteSerializer.create votes u a.id vt) a.id ≤ -3 then
          AlertStatus.REJECTED
        else a.status
      else a.status := rfl
  refine ⟨fun hp hs => ?_, fun hp hs => ?_, fun hp => ?_⟩
  · rw [hst, if_pos hp, if_pos hs]
  · rw [hst, if_pos hp, if_neg (by omega), if_pos hs]
  · rw [hst, if_neg hp]

/-- C2: after a vote event the stored verification score equals
upvotes minus downvotes recomputed over the alert's stored votes; a
repeat vote by the same voter mutates that voter's existing row instead
of appending one, and every row of the voter for this alert carries the
new direction; concretely, on another user's alert with no prior votes,
UPVOTE then DOWNVOTE by the same voter yields score -1. -/
theorem C2_score_recomputation (a : Alert) (votes : List AlertVote)
    (u : Nat) (vt : VoteType) :
    ((processVote a votes u vt).1.verification_score
        = scoreOf (processVote a votes u vt).2 a.id) ∧
    (votes.any (fun v => v.user == u && v.alert == a.id) = true →
        (AlertVoteSerializer.create votes u a.id vt).length = votes.length) ∧
    (∀ v ∈ AlertVoteSerializer.create votes u a.id vt,
        v.user = u → v.alert = a.id → v.vote_type = vt) ∧
    ((processVote (processVote alertPENDING [] 5 .UPVOTE).1
        (processVote alertPENDING [] 5 .UPVOTE).2 5
        .DOWNVOTE).1.verification_score = -1) := by
  refine ⟨rfl, fun h => ?_, fun v hv hvu hva => ?_, by decide⟩
  · rw [AlertVoteSerializer.create, if_pos h, List.length_map]
  · rw [AlertVoteSerializer.create] at hv
    by_cases h : votes.any (fun v => v.user == u && v.alert == a.id) = true
    · rw [if_pos h] at hv
      obtain ⟨w, hw, hweq⟩ := List.mem_map.mp hv
      by_cases hmatch : w.user = u ∧ w.alert = a.id
      · rw [if_pos hmatch] at hweq
        rw [← hweq]
      · rw [if_neg hmatch] at hweq
        subst hweq
        exact absurd ⟨hvu, hva⟩ hmatch
    · rw [if_neg h] at hv
      rcases List.mem_append.mp hv with hv1 | hv2
      · exfalso
        apply h
        exact List.any_eq_true.mpr ⟨v, hv1, by simp [hvu, hva]⟩
      · rw [List.mem_singleton.mp hv2]

/-- True when AlertVoteSerializer.validate raises no ValidationError. -/
def acceptsVote (a : Alert) (u : Nat) : Bool :=
  match AlertVoteSerializer.validate a u with
  | .ok _ => true
  | .error _ => false

/-- C3 counterexample: the claim predicts that a non-creator's vote on
an ACTIVE alert passes validation, but AlertVoteSerializer.validate
rejects every alert outside [PENDING, VERIFIED], including ACTIVE. -/
theorem C3_counterexample :
    ¬ (acceptsVote alertACTIVE 1 = false ↔
        (alertACTIVE.created_by = some 1 ∨
          alertACTIVE.status ∉ [AlertStatus.PENDING, .VERIFIED, .ACTIVE])) := by
  decide

/-- C3 (amended): vote validation rejects a vote exactly when the voter
is the alert's creator or the alert's status lies outside
[PENDING, VERIFIED]; in particular both REJECTED and ACTIVE alerts
reject all votes. -/
theorem C3_vote_validation (a : Alert) (u : Nat) :
    acceptsVote a u = false ↔
      (a.created_by = some u ∨
        (a.status ≠ .PENDING ∧ a.status ≠ .VERIFIED)) := by
  unfold acceptsVote AlertVoteSerializer.validate
  split_ifs with h1 h2
  · simp [h1]
  · simp only [List.mem_cons, List.mem_singleton] at h2
    rcases h2 with h2 | h2 | h2
    · simp [h1, h2]
    · simp [h1, h2]
    · cases h2
  · simp only [List.mem_cons, List.mem_singleton, not_or] at h2
    simp [h1, h2]

/-! ## GeoMath (backend/safenow/common/geo.py)

haversine_km is trigonometric on real numbers; components that call it
take a distance oracle parameter named hav.  eta_walk_seconds and
bounding_box are arithmetic and are modelled exactly (bounding_box over
a cosine oracle cosD for math.cos(math.radians(lat))). -/

/-- Python round(): round half to even on the exact value. -/
def pyRound (q : ℚ) : ℤ :=
  let f := ⌊q⌋
  let frac := q - (f : ℚ)
  if frac < 1/2 then f
  else if 1/2 < frac then f + 1
  else if f % 2 = 0 then f else f + 1

/-- Python int(): truncation toward zero. -/
def pyTrunc (q : ℚ) : ℤ :=
  if 0 ≤ q then ⌊q⌋ else ⌈q⌉

/-- eta_walk_seconds (geo.py lines 26-47): ValueError on negative
distance or non-positive speed, else int(round(distance_m / speed)).
The default speed 1.4 m/s is written 7/5 at call sites. -/
def eta_walk_seconds (distance_km : ℚ) (speed_m_s : ℚ) : Except String ℤ :=
  if distance_km < 0 then .error "Distance cannot be negative"
  else if speed_m_s ≤ 0 then .error "Speed must be positive"
  else .ok (pyRound (distance_km * 1000 / speed_m_s))

/-- The (min_lat, max_lat, min_lon, max_lon) tuple of geo.py's
bounding_box. -/
structure Box where
  min_lat : ℚ
  max_lat : ℚ
  min_lon : ℚ
  max_lon : ℚ

/-- bounding_box (geo.py lines 50-73): 111 km per degree of latitude,
longitude delta corrected by the cosine of the latitude (cosD is the
oracle for math.cos(math.radians(lat))). -/
def bounding_box (cosD : ℚ → ℚ) (lat lon radius_km : ℚ) : Box :=
  let lat_delta := radius_km / 111
  let lon_delta := radius_km / (111 * cosD lat)
  { min_lat := lat - lat_delta, max_lat := lat + lat_delta,
    min_lon := lon - lon_delta, max_lon := lon + lon_delta }

/-! ## C9: eta_walk_seconds contract -/

/-- C9: eta_walk_seconds fails exactly when the distance is negative or
the speed non-positive; otherwise it returns round(distance_km * 1000
divided by the speed), which is non-negative; at 1.0 km and the default
speed 1.4 m/s it returns 714. -/
theorem C9_eta_walk_seconds (d s : ℚ) :
    ((∃ e, eta_walk_seconds d s = .error e) ↔ (d < 0 ∨ s ≤ 0)) ∧
    (0 ≤ d → 0 < s →
      eta_walk_seconds d s = .ok (pyRound (d * 1000 / s)) ∧
        0 ≤ pyRound (d * 1000 / s)) ∧
    eta_walk_seconds 1 (7/5) = .ok 714 := by
  have hok : ∀ q : ℚ, 0 ≤ q → 0 ≤ pyRound q := by
    intro q hq
    simp only [pyRound]
    have hf : (0 : ℤ) ≤ ⌊q⌋ := Int.floor_nonneg.mpr hq
    split_ifs <;> omega
  refine ⟨⟨?_, ?_⟩, fun hd hs => ⟨?_, ?_⟩, ?_⟩
  · rintro ⟨e, he⟩
    by_contra hcon
    push_neg at hcon
    rw [eta_walk_seconds, if_neg (not_lt.mpr hcon.1), if_neg (not_le.mpr hcon.2)] at he
    exact Except.noConfusion he
  · rintro (hd | hs)
    · exact ⟨_, by rw [eta_walk_seconds, if_pos hd]⟩
    · by_cases hd : d < 0
      · exact ⟨_, by rw [eta_walk_seconds, if_pos hd]⟩
      · exact ⟨_, by rw [eta_walk_seconds, if_neg hd, if_pos hs]⟩
  · rw [eta_walk_seconds, if_neg (not_lt.mpr hd), if_neg (not_le.mpr hs)]
  · exact hok _ (div_nonneg (mul_nonneg hd (by norm_num)) hs.le)
  · rw [eta_walk_seconds, if_neg (by norm_num), if_neg (by norm_num)]
    have hq : (1 * 1000 / (7/5) : ℚ) = 5000/7 := by norm_num
    have hf : ⌊(5000/7 : ℚ)⌋ = 714 := by
      rw [Int.floor_eq_iff]
      norm_num
    simp only [pyRound, hq, hf]
    norm_num

/-! ## Push notification formatting (push/fcm.py) -/

/-- The alert_data dict assembled in alerts/signals.py lines 108-118
(valid_until carried as its isoformat string). -/
structure AlertData where
  alert_id : Nat
  hazard_type : String
  severity : String
  center_lat : ℚ
  center_lon : ℚ
  radius_m : ℤ
  valid_until : String
  nearest_shelter_id : Nat
  nearest_shelter_name : String

/-- ETA formatting of send_emergency_alert_push (fcm.py lines 120-129):
seconds below one minute, whole minutes below one hour, otherwise hours
and minutes (// and % are Python floor division and modulus, which for
the nonnegative operands reaching these branches coincide with Int.ediv
and Int.emod). -/
def format_eta (shelter_eta : ℤ) : String :=
  if shelter_eta < 60 then toString shelter_eta ++ "s"
  else if shelter_eta < 3600 then toString (Int.ediv shelter_eta 60) ++ "min"
  else toString (Int.ediv shelter_eta 3600) ++ "h "
    ++ toString (Int.ediv (Int.emod shelter_eta 3600) 60) ++ "min"

/-- One-decimal rendering of a float, Python f-string .1f, for the
nonnegative distances that reach it. -/
def fmtOneDecimal (d : ℚ) : String :=
  let n := pyRound (d * 10)
  toString (Int.ediv n 10) ++ "." ++ toString (Int.emod n 10)

/-- Distance formatting of send_emergency_alert_push (fcm.py lines
131-135): whole truncated meters below 1 km, else km with one decimal. -/
def format_distance (shelter_distance : ℚ) : String :=
  if shelter_distance < 1 then
    toString (pyTrunc (shelter_distance * 1000)) ++ "m"
  else
    fmtOneDecimal shelter_distance ++ "km"

/-- Python str() of the raw numeric distance, abstracted as toString
(only the payload keys and the fixed action value are reasoned about). -/
def pyStr (q : ℚ) : String := toString q

/-- send_emergency_alert_push (push/fcm.py lines 106-151): the body text
and the structured data payload it builds (an association list in dict
insertion order); token and title pass to send_push unchanged and play
no role in the content contract. -/
def send_emergency_alert_push (shelter_distance : ℚ) (shelter_eta : ℤ)
    (alert_data : AlertData) : String × List (String × String) :=
  ( "Nearest shelter " ++ format_distance shelter_distance ++ " away, ETA "
      ++ format_eta shelter_eta,
    [("type", "emergency_alert"),
     ("alert_id", toString alert_data.alert_id),
     ("hazard_type", alert_data.hazard_type),
     ("severity", alert_data.severity),
     ("shelter_distance_km", pyStr shelter_distance),
     ("shelter_eta_seconds", toString shelter_eta),
     ("action", "navigate_to_shelter")] )

/-- Concrete alert_data for the formatting scenarios. -/
def alertDataFix : AlertData :=
  { alert_id := 10, hazard_type := "FLOOD", severity := "MEDIUM",
    center_lat := 52, center_lon := 21, radius_m := 2000,
    valid_until := "2026-01-01T00:00:00", nearest_shelter_id := 1,
    nearest_shelter_name := "Central Station Shelter" }

/-! ## C8: notification body and payload format -/

/-- C8 counterexample: at an ETA of exactly one hour the body is
rendered in hours and minutes (1h 0min), not in minutes (60min) as the
claim states for every ETA of 60 seconds or more. -/
theorem C8_counterexample :
    (send_emergency_alert_push 1 3600 alertDataFix).1
        = "Nearest shelter 1.0km away, ETA 1h 0min" ∧
    (send_emergency_alert_push 1 3600 alertDataFix).1
        ≠ "Nearest shelter 1.0km away, ETA 60min" := by
  have hr : pyRound ((1 : ℚ) * 10) = 10 := by
    have h10 : ((1 : ℚ) * 10) = 10 := by norm_num
    have hf : ⌊(10 : ℚ)⌋ = 10 := by
      rw [Int.floor_eq_iff]
      norm_num
    rw [h10]
    simp only [pyRound, hf]
    norm_num
  have hbody : (send_emergency_alert_push 1 3600 alertDataFix).1
      = "Nearest shelter 1.0km away, ETA 1h 0min" := by
    show "Nearest shelter " ++ format_distance 1 ++ " away, ETA "
        ++ format_eta 3600 = _
    rw [format_distance, if_neg (by norm_num)]
    simp only [fmtOneDecimal, hr]
    rw [format_eta, if_neg (by norm_num), if_neg (by norm_num)]
    rfl
  exact ⟨hbody, by rw [hbody]; decide⟩

/-- C8 (amended): the body is exactly the template with the formatted
distance and ETA, where distances under 1 km are whole meters and
otherwise km with one decimal place, ETAs under 60 s are seconds, ETAs
from one minute up to an hour are whole minutes, and ETAs of an hour or
more are hours and minutes; the data payload holds exactly the keys
type, alert_id, hazard_type, severity, shelter_distance_km,
shelter_eta_seconds, action, with action fixed to navigate_to_shelter. -/
theorem C8_notification_format (dist : ℚ) (eta : ℤ) (ad : AlertData) :
    ((send_emergency_alert_push dist eta ad).1 =
      "Nearest shelter " ++ format_distance dist ++ " away, ETA "
        ++ format_eta eta) ∧
    (dist < 1 → format_distance dist = toString (pyTrunc (dist * 1000)) ++ "m") ∧
    (1 ≤ dist → format_distance dist = fmtOneDecimal dist ++ "km") ∧
    (eta < 60 → format_eta eta = toString eta ++ "s") ∧
    (60 ≤ eta → eta < 3600 →
      format_eta eta = toString (Int.ediv eta 60) ++ "min") ∧
    (3600 ≤ eta → format_eta eta = toString (Int.ediv eta 3600) ++ "h "
      ++ toString (Int.ediv (Int.emod eta 3600) 60) ++ "min") ∧
    ((send_emergency_alert_push dist eta ad).2.map Prod.fst =
      ["type", "alert_id", "hazard_type", "severity",
        "shelter_distance_km", "shelter_eta_seconds", "action"]) ∧
    ((send_emergency_alert_push dist eta ad).2.lookup "action"
        = some "navigate_to_shelter") := by
  refine ⟨rfl, fun h => ?_, fun h => ?_, fun h => ?_, fun h1 h2 => ?_,
    fun h => ?_, rfl, rfl⟩
  · rw [format_distance, if_pos h]
  · rw [format_distance, if_neg (not_lt.mpr h)]
  · rw [format_eta, if_pos h]
  · rw [format_eta, if_neg (not_lt.mpr h1), if_pos h2]
  · rw [format_eta, if_neg (by omega), if_neg (by omega)]

/-! ## Alert fan-out pipeline (alerts/signals.py) -/

/-- The candidate-device condition of signals.py lines 26-30:
push_token not null and non-empty, last position known. -/
def hasTokenAndPosition (d : Device) : Bool :=
  match d.push_token, d.last_lat, d.last_lon with
  | some t, some _, some _ => t != ""
  | _, _, _ => false

/-- The affected-device selection (signals.py lines 26-55): the
candidate queryset fused with the distance loop, keeping each candidate
device with its distance to the alert center when
distance_km * 1000 <= radius_m. -/
def affectedDevices (hav : ℚ → ℚ → ℚ → ℚ → ℚ) (alert : Alert) :
    List Device → List (Device × ℚ)
  | [] => []
  | d :: rest =>
    match d.push_token, d.last_lat, d.last_lon with
    | some t, some la, some lo =>
      if t = "" then affectedDevices hav alert rest
      else if hav la lo alert.center_lat alert.center_lon * 1000
          ≤ (alert.radius_m : ℚ) then
        (d, hav la lo alert.center_lat alert.center_lon)
          :: affectedDevices hav alert rest
      else affectedDevices hav alert rest
    | _, _, _ => affectedDevices hav alert rest

/-- The distance the pipeline computes from a device's last position to
the alert center (positions are present for every candidate device). -/
def deviceAlertDistance (hav : ℚ → ℚ → ℚ → ℚ → ℚ) (alert : Alert)
    (d : Device) : ℚ :=
  hav (d.last_lat.getD 0) (d.last_lon.getD 0) alert.center_lat alert.center_lon

/-- The distance from a device's last position to a shelter, used by
the nearest-shelter scan (signals.py lines 80-83). -/
def shelterDistanceFrom (hav : ℚ → ℚ → ℚ → ℚ → ℚ) (d : Device)
    (s : Shelter) : ℚ :=
  hav (d.last_lat.getD 0) (d.last_lon.getD 0) s.lat s.lon

/-- The nearest-shelter linear scan (signals.py lines 76-86), carrying
the best (shelter, distance) so far; none plays float(inf)/None. -/
def nearestShelterScan (dist : Shelter → ℚ) :
    List Shelter → Option (Shelter × ℚ) → Option (Shelter × ℚ)
  | [], best => best
  | s :: rest, best =>
    match best with
    | none => nearestShelterScan dist rest (some (s, dist s))
    | some (b, db) =>
      if dist s < db then nearestShelterScan dist rest (some (s, dist s))
      else nearestShelterScan dist rest (some (b, db))

/-- The aggregate outcome of one fan-out run: the success/error counts
logged at signals.py line 140, plus the devices that received a
dispatch attempt (a send_emergency_alert_push call), in order. -/
structure FanoutResult where
  success_count : Nat
  error_count : Nat
  dispatched : List Device
deriving DecidableEq

/-- The dispatch loop (signals.py lines 70-140): per affected device
find the nearest open shelter (skip the device when none exists),
compute the walking ETA (a ValueError would be caught by the per-device
handler and counted as an error), then dispatch through the gateway;
gw gives each device's delivery outcome, and one device's failure only
increments error_count. -/
def fanoutLoop (hav : ℚ → ℚ → ℚ → ℚ → ℚ) (gw : Device → Bool)
    (all_shelters : List Shelter) : List (Device × ℚ) → FanoutResult
  | [] => { success_count := 0, error_count := 0, dispatched := [] }
  | (d, _) :: rest =>
    let r := fanoutLoop hav gw all_shelters rest
    match nearestShelterScan (shelterDistanceFrom hav d) all_shelters none with
    | none => r
    | some (_, dmin) =>
      match eta_walk_seconds dmin (7/5) with
      | .error _ => { r with error_count := r.error_count + 1 }
      | .ok _ =>
        if gw d then
          { r with success_count := r.success_count + 1,
                   dispatched := d :: r.dispatched }
        else
          { r with error_count := r.error_count + 1,
                   dispatched := d :: r.dispatched }

/-- send_alert_notifications (signals.py lines 14-140) for a freshly
created alert: select candidate devices within the radius, prefetch the
open shelters once, then run the per-device dispatch loop. -/
def send_alert_notifications (hav : ℚ → ℚ → ℚ → ℚ → ℚ)
    (gw : Device → Bool) (alert : Alert) (devices : List Device)
    (shelters : List Shelter) : FanoutResult :=
  fanoutLoop hav gw (shelters.filter (fun s => s.is_open_now))
    (affectedDevices hav alert devices)

/-- One step of affectedDevices, phrased by the selection condition. -/
theorem affectedDevices_cons (hav : ℚ → ℚ → ℚ → ℚ → ℚ) (alert : Alert)
    (d0 : Device) (rest : List Device) :
    affectedDevices hav alert (d0 :: rest) =
      if hasTokenAndPosition d0 = true ∧
          deviceAlertDistance hav alert d0 * 1000 ≤ (alert.radius_m : ℚ) then
        (d0, deviceAlertDistance hav alert d0) :: affectedDevices hav alert rest
      else affectedDevices hav alert rest := by
  obtain ⟨did, pt, la, lo⟩ := d0
  cases pt with
  | none => simp [affectedDevices, hasTokenAndPosition]
  | some t =>
    cases la with
    | none => simp [affectedDevices, hasTokenAndPosition]
    | some lav =>
      cases lo with
      | none => simp [affectedDevices, hasTokenAndPosition]
      | some lov =>
        by_cases ht : t = ""
        · simp [affectedDevices, hasTokenAndPosition, ht]
        · by_cases hd : hav lav lov alert.center_lat alert.center_lon * 1000
              ≤ (alert.radius_m : ℚ)
          · simp [affectedDevices, hasTokenAndPosition, deviceAlertDistance, ht, hd]
          · simp [affectedDevices, hasTokenAndPosition, deviceAlertDistance, ht, hd]

/-- Membership in the affected-device list. -/
theorem mem_affectedDevices (hav : ℚ → ℚ → ℚ → ℚ → ℚ) (alert : Alert)
    (devices : List Device) (d : Device) (q : ℚ) :
    (d, q) ∈ affectedDevices hav alert devices ↔
      (d ∈ devices ∧ hasTokenAndPosition d = true ∧
        q = deviceAlertDistance hav alert d ∧
        q * 1000 ≤ (alert.radius_m : ℚ)) := by
  induction devices with
  | nil => simp [affectedDevices]
  | cons d0 rest ih =>
    rw [affectedDevices_cons]
    by_cases h : hasTokenAndPosition d0 = true ∧
        deviceAlertDistance hav alert d0 * 1000 ≤ (alert.radius_m : ℚ)
    · rw [if_pos h]
      constructor
      · intro hm
        rcases List.mem_cons.mp hm with he | hm2
        · injection he with h1 h2
          subst h1
          subst h2
          exact ⟨List.mem_cons_self _ _, h.1, rfl, h.2⟩
        · have h3 := ih.mp hm2
          exact ⟨List.mem_cons_of_mem _ h3.1, h3.2⟩
      · rintro ⟨hmem, htok, hq, hle⟩
        rcases List.mem_cons.mp hmem with rfl | hm2
        · subst hq
          exact List.mem_cons_self _ _
        · exact List.mem_cons_of_mem _ (ih.mpr ⟨hm2, htok, hq, hle⟩)
    · rw [if_neg h]
      rw [ih]
      constructor
      · rintro ⟨hm, hrest⟩
        exact ⟨List.mem_cons_of_mem _ hm, hrest⟩
      · rintro ⟨hmem, htok, hq, hle⟩
        rcases List.mem_cons.mp hmem with rfl | hm2
        · subst hq
          exact absurd ⟨htok, hle⟩ h
        · exact ⟨hm2, htok, hq, hle⟩

/-- The nearest-shelter scan only yields a shelter of the scanned list
(with its computed distance) or the incoming accumulator. -/
theorem nearestShelterScan_mem (dist : Shelter → ℚ) :
    ∀ (l : List Shelter) (acc : Option (Shelter × ℚ)) (s : Shelter) (q : ℚ),
      nearestShelterScan dist l acc = some (s, q) →
      (s ∈ l ∧ q = dist s) ∨ acc = some (s, q) := by
  intro l
  induction l with
  | nil =>
    intro acc s q h
    right
    exact h
  | cons s0 rest ih =>
    intro acc s q h
    cases acc with
    | none =>
      rw [nearestShelterScan] at h
      rcases ih _ s q h with ⟨hm, hq⟩ | hacc
      · exact Or.inl ⟨List.mem_cons_of_mem _ hm, hq⟩
      · injection hacc with hp
        injection hp with h1 h2
        subst h1
        subst h2
        exact Or.inl ⟨List.mem_cons_self _ _, rfl⟩
    | some p =>
      obtain ⟨b, db⟩ := p
      rw [nearestShelterScan] at h
      by_cases hlt : dist s0 < db
      · rw [if_pos hlt] at h
        rcases ih _ s q h with hl | hacc
        · exact Or.inl ⟨List.mem_cons_of_mem _ hl.1, hl.2⟩
        · injection hacc with hp
          injection hp with h1 h2
          subst h1
          subst h2
          exact Or.inl ⟨List.mem_cons_self _ _, rfl⟩
      · rw [if_neg hlt] at h
        rcases ih _ s q h with hl | hacc
        · exact Or.inl ⟨List.mem_cons_of_mem _ hl.1, hl.2⟩
        · exact Or.inr hacc
    
/-- Starting from a some accumulator the scan always yields a result. -/
theorem nearestShelterScan_isSome (dist : Shelter → ℚ) :
    ∀ (l : List Shelter) (b : Shelter) (db : ℚ),
      ∃ s q, nearestShelterScan dist l (some (b, db)) = some (s, q) := by
  intro l
  induction l with
  | nil =>
    intro b db
    exact ⟨b, db, rfl⟩
  | cons s0 rest ih =>
    intro b db
    rw [nearestShelterScan]
    by_cases hlt : dist s0 < db
    · rw [if_pos hlt]
      exact ih s0 (dist s0)
    · rw [if_neg hlt]
      exact ih b db

/-- With a nonnegative distance oracle and at least one open shelter,
every device of the loop gets a dispatch attempt, in order, and the
success and error counts are exactly the per-device gateway outcomes. -/
theorem fanoutLoop_spec (hav : ℚ → ℚ → ℚ → ℚ → ℚ) (gw : Device → Bool)
    (all_shelters : List Shelter)
    (hnn : ∀ a b c d, 0 ≤ hav a b c d) (hne : all_shelters ≠ []) :
    ∀ pairs : List (Device × ℚ),
      (fanoutLoop hav gw all_shelters pairs).dispatched = pairs.map Prod.fst ∧
      (fanoutLoop hav gw all_shelters pairs).success_count
        = ((pairs.map Prod.fst).filter gw).length ∧
      (fanoutLoop hav gw all_shelters pairs).error_count
        = ((pairs.map Prod.fst).filter (fun d => !(gw d))).length := by
  intro pairs
  induction pairs with
  | nil => exact ⟨rfl, rfl, rfl⟩
  | cons p rest ih =>
    obtain ⟨d, qd⟩ := p
    have hsome : ∃ s q,
        nearestShelterScan (shelterDistanceFrom hav d) all_shelters none
          = some (s, q) := by
      cases all_shelters with
      | nil => exact absurd rfl hne
      | cons s0 tl =>
        rw [nearestShelterScan]
        exact nearestShelterScan_isSome _ tl s0 _
    obtain ⟨s, q, hq⟩ := hsome
    have hq0 : 0 ≤ q := by
      rcases nearestShelterScan_mem _ all_shelters none s q hq with ⟨_, hqe⟩ | habs
      · rw [hqe]
        exact hnn _ _ _ _
      · exact absurd habs (by simp)
    have hn : eta_walk_seconds q (7/5)
        = .ok (pyRound (q * 1000 / (7/5))) := by
      rw [eta_walk_seconds, if_neg (not_lt.mpr hq0), if_neg (by norm_num)]
    by_cases hgw : gw d = true
    · refine ⟨?_, ?_, ?_⟩ <;>
        simp [fanoutLoop, hq, hn, hgw, ih.1, ih.2.1, ih.2.2, List.filter_cons]
    · have hgw2 : gw d = false := by
        cases h : gw d
        · rfl
        · exact absurd h hgw
      refine ⟨?_, ?_, ?_⟩ <;>
        simp [fanoutLoop, hq, hn, hgw2, ih.1, ih.2.1, ih.2.2, List.filter_cons]

/-! ## C4 - C5: fan-out selection and per-device isolation -/

/-- Distance oracle for the concrete fan-out scenarios: 3 km from
latitude 1, 6 km from anywhere else. -/
def havWitness : ℚ → ℚ → ℚ → ℚ → ℚ :=
  fun la _ _ _ => if la = 1 then 3 else 6

/-- Gateway in which every send succeeds. -/
def gwAll : Device → Bool := fun _ => true

/-- A 5000 m radius alert centered at the origin. -/
def alertR5000 : Alert :=
  { alertACTIVE with id := 12, radius_m := 5000, center_lat := 0, center_lon := 0 }

/-- A registered device 3 km from the alert center. -/
def deviceNear : Device :=
  { device_id := "near", push_token := some "tokA",
    last_lat := some 1, last_lon := some 0 }

/-- A registered device 6 km from the alert center. -/
def deviceFar : Device :=
  { device_id := "far", push_token := some "tokB",
    last_lat := some 2, last_lon := some 0 }

/-- An open shelter at the origin. -/
def shelterOpen : Shelter :=
  { id := 1, name := "S1", address := "A1", lat := 0, lon := 0,
    is_open_now := true }

/-- With no open shelter the dispatch loop skips every device. -/
theorem fanoutLoop_no_shelters (hav : ℚ → ℚ → ℚ → ℚ → ℚ)
    (gw : Device → Bool) :
    ∀ pairs : List (Device × ℚ),
      fanoutLoop hav gw [] pairs
        = { success_count := 0, error_count := 0, dispatched := [] } := by
  intro pairs
  induction pairs with
  | nil => rfl
  | cons p rest ih =>
    obtain ⟨d, q⟩ := p
    simp [fanoutLoop, nearestShelterScan, ih]

/-- C4 counterexample: a device with a push token, a known position and
distance within the alert radius receives no dispatch attempt when no
open shelter exists, so the claimed equivalence fails. -/
theorem C4_counterexample :
    (send_alert_notifications havWitness gwAll alertR5000 [deviceNear] []).dispatched
        = [] ∧
    deviceNear ∈ [deviceNear] ∧
    hasTokenAndPosition deviceNear = true ∧
    deviceAlertDistance havWitness alertR5000 deviceNear * 1000
        ≤ (alertR5000.radius_m : ℚ) := by
  refine ⟨?_, List.mem_cons_self _ _, by decide, ?_⟩
  · rw [send_alert_notifications]
    rw [show ([] : List Shelter).filter (fun s => s.is_open_now) = [] from rfl]
    rw [fanoutLoop_no_shelters]
  · rw [show deviceAlertDistance havWitness alertR5000 deviceNear = 3 by
      simp [deviceAlertDistance, havWitness, deviceNear]]
    rw [show (alertR5000.radius_m : ℚ) = 5000 by norm_num [alertR5000]]
    norm_num

/-- C4 (amended): provided at least one open shelter exists, a device
receives a dispatch attempt exactly when it has a non-empty push token,
a known last position and distance-to-center times 1000 at most the
alert radius in meters; without an open shelter every device is skipped
(see the counterexample). -/
theorem C4_fanout_selection (hav : ℚ → ℚ → ℚ → ℚ → ℚ)
    (gw : Device → Bool) (alert : Alert) (devices : List Device)
    (shelters : List Shelter)
    (hnn : ∀ a b c d, 0 ≤ hav a b c d)
    (hopen : shelters.filter (fun s => s.is_open_now) ≠ []) (d : Device) :
    d ∈ (send_alert_notifications hav gw alert devices shelters).dispatched ↔
      (d ∈ devices ∧ hasTokenAndPosition d = true ∧
        deviceAlertDistance hav alert d * 1000 ≤ (alert.radius_m : ℚ)) := by
  rw [send_alert_notifications,
    (fanoutLoop_spec hav gw _ hnn hopen _).1, List.mem_map]
  constructor
  · rintro ⟨⟨d', q⟩, hm, rfl⟩
    have h3 := (mem_affectedDevices hav alert devices d' q).mp hm
    refine ⟨h3.1, h3.2.1, ?_⟩
    rw [← h3.2.2.1]
    exact h3.2.2.2
  · rintro ⟨hm, htok, hle⟩
    exact ⟨(d, deviceAlertDistance hav alert d),
      (mem_affectedDevices hav alert devices d _).mpr ⟨hm, htok, rfl, hle⟩, rfl⟩

/-- C4 witness: radius 5000 m, one device 3 km away is dispatched to
and one device 6 km away is not. -/
theorem C4_witness :
    deviceNear ∈ (send_alert_notifications havWitness gwAll alertR5000
        [deviceNear, deviceFar] [shelterOpen]).dispatched ∧
    deviceFar ∉ (send_alert_notifications havWitness gwAll alertR5000
        [deviceNear, deviceFar] [shelterOpen]).dispatched := by
  constructor
  · exact (C4_fanout_selection havWitness gwAll alertR5000
      [deviceNear, deviceFar] [shelterOpen]
      (by intro a b c d; rw [havWitness]; split_ifs <;> norm_num)
      (by decide) deviceNear).mpr
      ⟨List.mem_cons_self _ _, by decide, by
        rw [show deviceAlertDistance havWitness alertR5000 deviceNear = 3 by
          simp [deviceAlertDistance, havWitness, deviceNear]]
        rw [show (alertR5000.radius_m : ℚ) = 5000 by norm_num [alertR5000]]
        norm_num⟩
  · intro hmem
    have h3 := (C4_fanout_selection havWitness gwAll alertR5000
      [deviceNear, deviceFar] [shelterOpen]
      (by intro a b c d; rw [havWitness]; split_ifs <;> norm_num)
      (by decide) deviceFar).mp hmem
    have h4 : deviceAlertDistance havWitness alertR5000 deviceFar = 6 := by
      simp [deviceAlertDistance, havWitness, deviceFar]
    rw [h4, show (alertR5000.radius_m : ℚ) = 5000 by norm_num [alertR5000]] at h3
    norm_num at h3

/-- When every listed device is affected, the affected list is the
device list paired with its distances. -/
theorem affectedDevices_all (hav : ℚ → ℚ → ℚ → ℚ → ℚ) (alert : Alert) :
    ∀ devices : List Device,
      (∀ d ∈ devices, hasTokenAndPosition d = true ∧
          deviceAlertDistance hav alert d * 1000 ≤ (alert.radius_m : ℚ)) →
      affectedDevices hav alert devices
        = devices.map (fun d => (d, deviceAlertDistance hav alert d)) := by
  intro devices
  induction devices with
  | nil => intro _; rfl
  | cons d0 rest ih =>
    intro hall
    rw [affectedDevices_cons, if_pos (hall d0 (List.mem_cons_self _ _)),
      ih (fun d hd => hall d (List.mem_cons_of_mem _ hd)), List.map_cons]

/-- C5: when at least one open shelter exists and every device in the
run is affected, each device gets its own dispatch attempt and the
aggregate counts are exactly the per-device gateway outcomes - one
failing send neither blocks nor skips the other dispatches. -/
theorem C5_per_device_isolation (hav : ℚ → ℚ → ℚ → ℚ → ℚ)
    (gw : Device → Bool) (alert : Alert) (devices : List Device)
    (shelters : List Shelter)
    (hnn : ∀ a b c d, 0 ≤ hav a b c d)
    (hopen : shelters.filter (fun s => s.is_open_now) ≠ [])
    (hall : ∀ d ∈ devices, hasTokenAndPosition d = true ∧
        deviceAlertDistance hav alert d * 1000 ≤ (alert.radius_m : ℚ)) :
    (send_alert_notifications hav gw alert devices shelters).dispatched
        = devices ∧
    (send_alert_notifications hav gw alert devices shelters).success_count
        = (devices.filter gw).length ∧
    (send_alert_notifications hav gw alert devices shelters).error_count
        = (devices.filter (fun d => !(gw d))).length := by
  have hspec := fanoutLoop_spec hav gw
    (shelters.filter (fun s => s.is_open_now)) hnn hopen
    (devices.map (fun d => (d, deviceAlertDistance hav alert d)))
  have hsend : send_alert_notifications hav gw alert devices shelters
      = fanoutLoop hav gw (shelters.filter (fun s => s.is_open_now))
          (devices.map (fun d => (d, deviceAlertDistance hav alert d))) := by
    rw [send_alert_notifications, affectedDevices_all hav alert devices hall]
  have hmap : (devices.map (fun d => (d, deviceAlertDistance hav alert d))).map
      Prod.fst = devices := by
    simp [Function.comp_def]
  refine ⟨?_, ?_, ?_⟩
  · rw [hsend, hspec.1, hmap]
  · rw [hsend, hspec.2.1, hmap]
  · rw [hsend, hspec.2.2, hmap]

/-- Gateway that fails exactly for the device with id d2. -/
def gwFailSecond : Device → Bool := fun d => d.device_id != "d2"

/-- Three registered devices 3 km from the alert center. -/
def dev1 : Device :=
  { device_id := "d1", push_token := some "t1",
    last_lat := some 1, last_lon := some 0 }

/-- Second of the three devices (its send will fail). -/
def dev2 : Device :=
  { device_id := "d2", push_token := some "t2",
    last_lat := some 1, last_lon := some 0 }

/-- Third of the three devices. -/
def dev3 : Device :=
  { device_id := "d3", push_token := some "t3",
    last_lat := some 1, last_lon := some 0 }

/-- C5 witness: of three affected devices with exactly one failing
send, the run reports 2 successes and 1 failure and all three devices
get a dispatch attempt. -/
theorem C5_witness :
    (send_alert_notifications havWitness gwFailSecond alertR5000
        [dev1, dev2, dev3] [shelterOpen]).success_count = 2 ∧
    (send_alert_notifications havWitness gwFailSecond alertR5000
        [dev1, dev2, dev3] [shelterOpen]).error_count = 1 ∧
    (send_alert_notifications havWitness gwFailSecond alertR5000
        [dev1, dev2, dev3] [shelterOpen]).dispatched = [dev1, dev2, dev3] := by
  have hall : ∀ d ∈ [dev1, dev2, dev3], hasTokenAndPosition d = true ∧
      deviceAlertDistance havWitness alertR5000 d * 1000
        ≤ (alertR5000.radius_m : ℚ) := by
    intro d hd
    have hdist : ∀ dv : Device, dv.last_lat = some 1 →
        deviceAlertDistance havWitness alertR5000 dv = 3 := by
      intro dv hv
      simp [deviceAlertDistance, havWitness, hv]
    rcases List.mem_cons.mp hd with rfl | hd
    · exact ⟨by decide, by
        rw [hdist dev1 rfl, show (alertR5000.radius_m : ℚ) = 5000 by
          norm_num [alertR5000]]
        norm_num⟩
    rcases List.mem_cons.mp hd with rfl | hd
    · exact ⟨by decide, by
        rw [hdist dev2 rfl, show (alertR5000.radius_m : ℚ) = 5000 by
          norm_num [alertR5000]]
        norm_num⟩
    rcases List.mem_cons.mp hd with rfl | hd
    · exact ⟨by decide, by
        rw [hdist dev3 rfl, show (alertR5000.radius_m : ℚ) = 5000 by
          norm_num [alertR5000]]
        norm_num⟩
    · cases hd
  obtain ⟨h1, h2, h3⟩ := C5_per_device_isolation havWitness gwFailSecond
    alertR5000 [dev1, dev2, dev3] [shelterOpen]
    (by intro a b c d; rw [havWitness]; split_ifs <;> norm_num)
    (by decide) hall
  refine ⟨?_, ?_, h1⟩
  · rw [h2]
    decide
  · rw [h3]
    decide

/-! ## C10: a vote event's frame -/

/-- The persistent state a vote event can see: the voted-on alert, the
vote rows, and the device and shelter tables. -/
structure World where
  alert : Alert
  votes : List AlertVote
  devices : List Device
  shelters : List Shelter

/-- A vote event against the whole state: the serializer upsert plus
the post_save recompute write only the alert row (with
update_fields=[verification_score, status]) and the vote row; no
Device or Shelter row is read or written. -/
def processVoteEvent (w : World) (u : Nat) (vt : VoteType) : World :=
  { w with alert := (processVote w.alert w.votes u vt).1,
           votes := (processVote w.alert w.votes u vt).2 }

/-- C10: a vote event changes at most the alert's verification_score
and status - every other alert field and the device and shelter state
are untouched. -/
theorem C10_vote_frame (w : World) (u : Nat) (vt : VoteType) :
    (processVoteEvent w u vt).alert.id = w.alert.id ∧
    (processVoteEvent w u vt).alert.hazard_type = w.alert.hazard_type ∧
    (processVoteEvent w u vt).alert.severity = w.alert.severity ∧
    (processVoteEvent w u vt).alert.center_lat = w.alert.center_lat ∧
    (processVoteEvent w u vt).alert.center_lon = w.alert.center_lon ∧
    (processVoteEvent w u vt).alert.radius_m = w.alert.radius_m ∧
    (processVoteEvent w u vt).alert.valid_until = w.alert.valid_until ∧
    (processVoteEvent w u vt).alert.source = w.alert.source ∧
    (processVoteEvent w u vt).alert.description = w.alert.description ∧
    (processVoteEvent w u vt).alert.created_at = w.alert.created_at ∧
    (processVoteEvent w u vt).alert.created_by = w.alert.created_by ∧
    (processVoteEvent w u vt).alert.is_official = w.alert.is_official ∧
    (processVoteEvent w u vt).devices = w.devices ∧
    (processVoteEvent w u vt).shelters = w.shelters := by
  exact ⟨rfl, rfl, rfl, rfl, rfl, rfl, rfl, rfl, rfl, rfl, rfl, rfl, rfl, rfl⟩

/-! ## Nearby-shelter lookup (api/views.py NearbySheltersView.get) -/

/-- A shelter's stored coordinates lie in a bounding box. -/
def Shelter.inBox (s : Shelter) (box : Box) : Prop :=
  box.min_lat ≤ s.lat ∧ s.lat ≤ box.max_lat ∧
    box.min_lon ≤ s.lon ∧ s.lon ≤ box.max_lon

instance (s : Shelter) (box : Box) : Decidable (s.inBox box) := by
  unfold Shelter.inBox
  infer_instance

/-- The range query of views.py lines 129-131 (lat__gte, lat__lte,
lon__gte, lon__lte); openness is not part of the query. -/
def sheltersInBox (box : Box) (shelters : List Shelter) : List Shelter :=
  shelters.filter (fun s => decide (s.inBox box))

/-- The sort key of views.py line 147: ascending computed distance. -/
def byDistance (x y : Shelter × ℚ × ℤ) : Prop := x.2.1 ≤ y.2.1

instance : DecidableRel byDistance := fun x y =>
  inferInstanceAs (Decidable (x.2.1 ≤ y.2.1))

instance : IsTotal (Shelter × ℚ × ℤ) byDistance :=
  ⟨fun a b => le_total a.2.1 b.2.1⟩

instance : IsTrans (Shelter × ℚ × ℤ) byDistance :=
  ⟨fun _ _ _ h1 h2 => le_trans h1 h2⟩

/-- Python list slicing xs[:limit], including the negative-limit
semantics (drop the last |limit| elements). -/
def pySlice {α : Type} (limit : ℤ) (xs : List α) : List α :=
  if 0 ≤ limit then xs.take limit.toNat
  else xs.take (xs.length - limit.natAbs)

/-- NearbySheltersView.get (api/views.py lines 105-151) after parameter
parsing: clamp the limit to at most 20, prefilter shelters with the
10 km bounding box around the query point, compute the distance and
walking ETA per candidate (an uncaught ValueError would abort the
request), sort ascending by distance (Python's stable sort, modelled by
insertionSort) and slice to the limit. -/
def NearbySheltersView.get (cosD : ℚ → ℚ) (hav : ℚ → ℚ → ℚ → ℚ → ℚ)
    (user_lat user_lon : ℚ) (limit : ℤ) (shelters : List Shelter) :
    Except String (List (Shelter × ℚ × ℤ)) :=
  let limit2 := min limit 20
  let box := bounding_box cosD user_lat user_lon 10
  let candidates := sheltersInBox box shelters
  (candidates.mapM (fun s =>
    (eta_walk_seconds (hav user_lat user_lon s.lat s.lon) (7/5)).map
      (fun eta => (s, hav user_lat user_lon s.lat s.lon, eta)))).map
    (fun withDist => pySlice limit2 (withDist.insertionSort byDistance))

/-- The shelters of a view response (empty for an aborted request). -/
def viewShelters (r : Except String (List (Shelter × ℚ × ℤ))) :
    List Shelter :=
  match r with
  | .ok l => l.map (fun t => t.1)
  | .error _ => []

/-- The entry count of a view response. -/
def viewLength (r : Except String (List (Shelter × ℚ × ℤ))) : Nat :=
  match r with
  | .ok l => l.length
  | .error _ => 0

/-- mapM over Except succeeds elementwise. -/
theorem list_mapM_ok {α β : Type} (f : α → Except String β) (g : α → β)
    (hfg : ∀ x, f x = .ok (g x)) :
    ∀ l : List α, l.mapM f = .ok (l.map g) := by
  intro l
  induction l with
  | nil => rfl
  | cons x xs ih =>
    rw [List.mapM_cons, hfg x, ih]
    rfl

/-- Every element produced by a successful mapM comes from an element
of the input list. -/
theorem list_mapM_ok_mem {α β : Type} (f : α → Except String β) :
    ∀ (l : List α) (l2 : List β), l.mapM f = .ok l2 →
      ∀ y ∈ l2, ∃ x ∈ l, f x = .ok y := by
  intro l
  induction l with
  | nil =>
    intro l2 h y hy
    rw [List.mapM_nil] at h
    injection h with h
    subst h
    cases hy
  | cons a as ih =>
    intro l2 h y hy
    rw [List.mapM_cons] at h
    cases hfa : f a with
    | error e =>
      rw [hfa] at h
      exact Except.noConfusion h
    | ok b =>
      rw [hfa] at h
      cases hmas : as.mapM f with
      | error e =>
        rw [hmas] at h
        exact Except.noConfusion h
      | ok bs =>
        rw [hmas] at h
        injection h with h
        subst h
        rcases List.mem_cons.mp hy with rfl | hy2
        · exact ⟨a, List.mem_cons_self _ _, hfa⟩
        · obtain ⟨x, hx, hfx⟩ := ih bs hmas y hy2
          exact ⟨x, List.mem_cons_of_mem _ hx, hfx⟩

/-! ## C6 - C7: the nearby-shelters response -/

/-- C6 (amended): every entry of a successful nearby-shelters response
is a stored shelter whose coordinates lie inside the bounding box
computed around the query point; openness is not part of the prefilter,
so closed shelters inside the box are considered and returned alike
(see the counterexample). -/
theorem C6_prefilter_box (cosD : ℚ → ℚ) (hav : ℚ → ℚ → ℚ → ℚ → ℚ)
    (user_lat user_lon : ℚ) (limit : ℤ) (shelters : List Shelter)
    (res : List (Shelter × ℚ × ℤ))
    (hres : NearbySheltersView.get cosD hav user_lat user_lon limit shelters
      = .ok res) (e : Shelter × ℚ × ℤ) (he : e ∈ res) :
    e.1 ∈ shelters ∧ e.1.inBox (bounding_box cosD user_lat user_lon 10) := by
  rw [NearbySheltersView.get] at hres
  cases hm : (sheltersInBox (bounding_box cosD user_lat user_lon 10)
      shelters).mapM (fun s =>
        (eta_walk_seconds (hav user_lat user_lon s.lat s.lon) (7/5)).map
          (fun eta => (s, hav user_lat user_lon s.lat s.lon, eta))) with
  | error msg =>
    rw [hm] at hres
    exact Except.noConfusion hres
  | ok withDist =>
    rw [hm] at hres
    injection hres with hres
    subst hres
    have h1 : e ∈ withDist.insertionSort byDistance := by
      simp only [pySlice] at he
      split_ifs at he with h0
      · exact (List.take_sublist _ _).mem he
      · exact (List.take_sublist _ _).mem he
    have h2 : e ∈ withDist :=
      (List.perm_insertionSort byDistance withDist).mem_iff.mp h1
    obtain ⟨x, hx, hfx⟩ := list_mapM_ok_mem _ _ _ hm e h2
    have hx2 := List.mem_filter.mp hx
    have hex : e.1 = x := by
      cases heta : eta_walk_seconds (hav user_lat user_lon x.lat x.lon) (7/5) with
      | error msg =>
        rw [heta] at hfx
        simp only [Except.map] at hfx
        exact Except.noConfusion hfx
      | ok n =>
        rw [heta] at hfx
        simp only [Except.map] at hfx
        injection hfx with hfx
        rw [← hfx]
    rw [hex]
    exact ⟨hx2.1, of_decide_eq_true hx2.2⟩

/-- C7 (amended): with the (always true of haversine) nonnegative
distance oracle the lookup succeeds, and for every caller-supplied
non-negative maxResults - including values larger than 20 and zero -
it returns at most min(maxResults, 20) entries, always sorted
non-decreasing by distance; a negative maxResults is passed through
min(maxResults, 20) unclamped and Python slice semantics drop the last
|maxResults| entries instead of bounding the count (see the
counterexample). -/
theorem C7_limit_sorted (cosD : ℚ → ℚ) (hav : ℚ → ℚ → ℚ → ℚ → ℚ)
    (user_lat user_lon : ℚ) (limit : ℤ) (shelters : List Shelter)
    (hnn : ∀ a b c d, 0 ≤ hav a b c d) :
    ∃ res, NearbySheltersView.get cosD hav user_lat user_lon limit shelters
        = .ok res ∧
      (0 ≤ limit → (res.length : ℤ) ≤ min limit 20) ∧
      res.Pairwise byDistance := by
  have hfg : ∀ s : Shelter,
      (eta_walk_seconds (hav user_lat user_lon s.lat s.lon) (7/5)).map
        (fun eta => (s, hav user_lat user_lon s.lat s.lon, eta))
      = .ok (s, hav user_lat user_lon s.lat s.lon,
          pyRound (hav user_lat user_lon s.lat s.lon * 1000 / (7/5))) := by
    intro s
    rw [eta_walk_seconds, if_neg (not_lt.mpr (hnn _ _ _ _)),
      if_neg (by norm_num)]
    rfl
  refine ⟨pySlice (min limit 20)
      (((sheltersInBox (bounding_box cosD user_lat user_lon 10) shelters).map
        (fun s => (s, hav user_lat user_lon s.lat s.lon,
          pyRound (hav user_lat user_lon s.lat s.lon * 1000 / (7/5))))).insertionSort
        byDistance), ?_, ?_, ?_⟩
  · rw [NearbySheltersView.get, list_mapM_ok _ _ hfg]
    rfl
  · intro h0
    have hmin : (0 : ℤ) ≤ min limit 20 := le_min h0 (by norm_num)
    simp only [pySlice, if_pos hmin, List.length_take, List.length_insertionSort]
    have := Int.toNat_of_nonneg hmin
    omega
  · have hsorted := List.sorted_insertionSort byDistance
      ((sheltersInBox (bounding_box cosD user_lat user_lon 10) shelters).map
        (fun s => (s, hav user_lat user_lon s.lat s.lon,
          pyRound (hav user_lat user_lon s.lat s.lon * 1000 / (7/5)))))
    simp only [pySlice]
    split_ifs with h0
    · exact hsorted.sublist (List.take_sublist _ _)
    · exact hsorted.sublist (List.take_sublist _ _)

/-- Cosine oracle for the concrete lookup scenarios. -/
def cosOne : ℚ → ℚ := fun _ => 1

/-- Distance oracle that reports 0 km everywhere. -/
def havZero : ℚ → ℚ → ℚ → ℚ → ℚ := fun _ _ _ _ => 0

/-- A second open shelter at the origin. -/
def shelterOpen2 : Shelter :=
  { id := 2, name := "S2", address := "A2", lat := 0, lon := 0,
    is_open_now := true }

/-- A closed shelter at the origin. -/
def shelterClosed : Shelter :=
  { id := 3, name := "S3", address := "A3", lat := 0, lon := 0,
    is_open_now := false }

/-- Any origin-located shelter passes the 10 km box filter. -/
theorem originInBox (s : Shelter) (hla : s.lat = 0) (hlo : s.lon = 0) :
    s.inBox (bounding_box cosOne 0 0 10) := by
  rw [Shelter.inBox, bounding_box]
  norm_num [cosOne, hla, hlo]

/-- The per-candidate Except step at the zero distance oracle. -/
theorem havZero_entry (s : Shelter) :
    (eta_walk_seconds (havZero 0 0 s.lat s.lon) (7/5)).map
      (fun eta => (s, havZero 0 0 s.lat s.lon, eta)) = .ok (s, 0, 0) := by
  have h0 : pyRound ((0:ℚ) * 1000 / (7/5)) = 0 := by
    rw [show ((0:ℚ) * 1000 / (7/5)) = 0 by norm_num]
    simp only [pyRound]
    norm_num
  show (eta_walk_seconds 0 (7/5)).map _ = _
  rw [eta_walk_seconds, if_neg (by norm_num), if_neg (by norm_num)]
  simp only [Except.map, h0]
  rfl

/-- The lookup at the origin over one origin-located shelter. -/
theorem viewEval_single (s : Shelter) (hla : s.lat = 0) (hlo : s.lon = 0) :
    NearbySheltersView.get cosOne havZero 0 0 3 [s] = .ok [(s, 0, 0)] := by
  rw [NearbySheltersView.get]
  have h1 : sheltersInBox (bounding_box cosOne 0 0 10) [s] = [s] := by
    have ha := decide_eq_true (originInBox s hla hlo)
    simp [sheltersInBox, ha]
  rw [h1, list_mapM_ok _ _ havZero_entry]
  rfl

/-- C6 counterexample: a closed shelter inside the box is fetched by
the prefilter and returned by the lookup, though the claim requires
every considered shelter to be open. -/
theorem C6_counterexample :
    shelterClosed ∈ viewShelters
      (NearbySheltersView.get cosOne havZero 0 0 3 [shelterClosed]) ∧
    shelterClosed.is_open_now = false := by
  rw [viewEval_single shelterClosed rfl rfl]
  exact ⟨List.mem_singleton_self _, rfl⟩

/-- C6 witness: the box-membership guarantee at a concrete run. -/
theorem C6_witness :
    shelterOpen ∈ [shelterOpen] ∧
    shelterOpen.inBox (bounding_box cosOne 0 0 10) :=
  C6_prefilter_box cosOne havZero 0 0 3 [shelterOpen] [(shelterOpen, 0, 0)]
    (viewEval_single shelterOpen rfl rfl) (shelterOpen, 0, 0)
    (List.mem_singleton_self _)

/-- C7 counterexample: at maxResults = -1 over two in-box shelters the
lookup returns one entry, but the claim demands at most
min(maxResults, 20) = -1 entries. -/
theorem C7_counterexample :
    ¬ ((viewLength (NearbySheltersView.get cosOne havZero 0 0 (-1)
        [shelterOpen, shelterOpen2]) : ℤ) ≤ min (-1 : ℤ) 20) := by
  have heval : NearbySheltersView.get cosOne havZero 0 0 (-1)
      [shelterOpen, shelterOpen2] = .ok [(shelterOpen, 0, 0)] := by
    rw [NearbySheltersView.get]
    have h1 : sheltersInBox (bounding_box cosOne 0 0 10)
        [shelterOpen, shelterOpen2] = [shelterOpen, shelterOpen2] := by
      have ha := decide_eq_true (originInBox shelterOpen rfl rfl)
      have hb := decide_eq_true (originInBox shelterOpen2 rfl rfl)
      simp [sheltersInBox, ha, hb]
    rw [h1, list_mapM_ok _ _ havZero_entry]
    rfl
  rw [heval]
  norm_num [viewLength]

/-- C7 witness: the count bound and sortedness at a concrete run. -/
theorem C7_witness :
    ∃ res, NearbySheltersView.get cosOne havZero 0 0 5 [shelterOpen]
        = .ok res ∧ ((res.length : ℤ) ≤ min (5:ℤ) 20) ∧
        res.Pairwise byDistance := by
  obtain ⟨res, h1, h2, h3⟩ := C7_limit_sorted cosOne havZero 0 0 5
    [shelterOpen] (fun _ _ _ _ => le_refl 0)
  exact ⟨res, h1, h2 (by norm_num), h3⟩
